import Mathlib

/-!
Verification of the COSMED data-converter core (extraction-and-projection
pipeline) against its specification.

The repository contains several near-duplicate implementations of the same
pipeline; the claims cite specific ones, so each cited variant is embedded
separately and named after its source location:

- desktop pipeline: xml_data_reader.py (XmlDataReader.read_data),
  excel_exporter.py (ExcelExporter.export_selected_parameters /
  export_max_values_only / export_extracted_xml_data), and the modular core
  under modules/ (DataExtractor, XmlParser, FileScanner, PathValidator,
  ExportManager);
- web pipeline: cosmed-data-converter-web/modules/core/excel_exporter.py
  (ExcelExporter._create_selected_parameters_dataframe /
  _create_max_values_dataframe / _create_complete_dataframe /
  _create_custom_parameters_dataframe);
- deploy pipeline: COSMED_Converter_Deploy/xml_data_reader.py
  (XmlDataReader.extract_id_and_parameters) and
  COSMED_Converter_Deploy/excel_exporter.py.

Python dictionaries are modelled as insertion-ordered association lists
(`assocSet` overwrites in place, appends fresh keys at the end, exactly as
CPython dicts do); Python string values that may be None are `Option String`;
Python truthiness of such values is `pyTruthy`.  Filesystem traversal is
modelled by taking the output of os.walk (a list of (directory, files) pairs)
resp. os.listdir as input, and XML parsing (xml.etree.ElementTree, standard
library, not part of the repository) is modelled by attaching to each file its
parse outcome: `none` for a file that raises ParseError, `some root` for a
well-formed document.
-/

/-! ## Python string semantics helpers -/

/-- Python truthiness of a `str | None` value: `None` and the empty string are
falsy, every other string is truthy. -/
def pyTruthy : Option String → Bool
  | none => false
  | some s => s != ""

/-- Python rendering of a `str | None` value inside an f-string: `None` prints
as the four characters "None". -/
def pyStr : Option String → String
  | none => "None"
  | some s => s

/-- Python str.endswith, as suffix matching on the character sequence. -/
def pyEndsWith (s suffix : String) : Bool := suffix.data.isSuffixOf s.data

/-- Python str.lower (the filenames concerned are ASCII, where Lean's
Char.toLower agrees with Python). -/
def pyLower (s : String) : String := ⟨s.data.map Char.toLower⟩

/-- Python str.strip: drop whitespace from both ends. -/
def pyStrip (s : String) : String :=
  ⟨((s.data.dropWhile Char.isWhitespace).reverse.dropWhile Char.isWhitespace).reverse⟩

/-- Python os.path.join for the POSIX paths produced by os.walk. -/
def joinPath (d n : String) : String := d ++ "/" ++ n

/-- String comparison by code point, as Python's sorted() compares str. -/
def charListLe : List Char → List Char → Bool
  | [], _ => true
  | _ :: _, [] => false
  | a :: as, b :: bs =>
    if a.toNat < b.toNat then true
    else if b.toNat < a.toNat then false
    else charListLe as bs

/-- Python string ordering (lexicographic by code point). -/
def strLe (a b : String) : Bool := charListLe a.data b.data

/-! ## Python dict as an insertion-ordered association list -/

/-- The key sequence of a dict, in insertion order. -/
def assocKeys {α : Type} (d : List (String × α)) : List String := d.map (·.1)

/-- Python dict assignment d[k] = v: overwrite in place if the key exists,
otherwise append the new key at the end.  (Dicts are only ever built by
assignment starting from the empty dict, so keys are unique and replacing the
first occurrence is replacing the only occurrence.) -/
def assocSet {α : Type} : List (String × α) → String → α → List (String × α)
  | [], k, v => [(k, v)]
  | kv :: d, k, v => if kv.1 == k then (k, v) :: d else kv :: assocSet d k v

/-- Python dict lookup d.get(k) (None when the key is absent). -/
def assocGet {α : Type} : List (String × α) → String → Option α
  | [], _ => none
  | kv :: d, k => if kv.1 == k then some kv.2 else assocGet d k

/-- A sequence of dict assignments, performed left to right. -/
def applySets {α : Type} (d : List (String × α)) (es : List (String × α)) :
    List (String × α) :=
  es.foldl (fun acc kv => assocSet acc kv.1 kv.2) d

theorem assocKeys_assocSet {α : Type} (d : List (String × α)) (k : String) (v : α) :
    assocKeys (assocSet d k v) =
      if k ∈ assocKeys d then assocKeys d else assocKeys d ++ [k] := by
  induction d with
  | nil => simp [assocSet, assocKeys]
  | cons kv d ih =>
    by_cases hk : kv.1 = k
    · simp [assocSet, assocKeys, hk]
    · have hne : (kv.1 == k) = false := by simp [hk]
      have hne' : ¬ k = kv.1 := fun h => hk h.symm
      rw [show assocSet (kv :: d) k v = kv :: assocSet d k v by simp [assocSet, hne]]
      simp only [assocKeys, List.map_cons] at ih ⊢
      rw [ih]
      simp only [List.mem_cons, hne', false_or]
      by_cases hmem : k ∈ List.map (fun x => x.1) d <;> simp [hmem]

theorem mem_assocKeys_assocSet {α : Type} (d : List (String × α)) (k k' : String) (v : α) :
    k' ∈ assocKeys (assocSet d k v) ↔ k' ∈ assocKeys d ∨ k' = k := by
  rw [assocKeys_assocSet]
  by_cases h : k ∈ assocKeys d
  · simp only [h, if_true]
    constructor
    · exact Or.inl
    · rintro (hm | rfl)
      · exact hm
      · exact h
  · simp [h]

theorem mem_assocKeys_applySets {α : Type} (es : List (String × α))
    (d : List (String × α)) (k : String) :
    k ∈ assocKeys (applySets d es) ↔ k ∈ assocKeys d ∨ k ∈ es.map (·.1) := by
  induction es generalizing d with
  | nil => simp [applySets]
  | cons e es ih =>
    simp only [applySets, List.foldl_cons] at *
    rw [ih (assocSet d e.1 e.2), mem_assocKeys_assocSet]
    simp only [List.map_cons, List.mem_cons]
    tauto

theorem assocGet_assocSet_self {α : Type} (d : List (String × α)) (k : String) (v : α) :
    assocGet (assocSet d k v) k = some v := by
  induction d with
  | nil => simp [assocSet, assocGet]
  | cons kv d ih =>
    by_cases hk : kv.1 = k
    · simp [assocSet, assocGet, hk]
    · have hb : (kv.1 == k) = false := by simp [hk]
      simp [assocSet, assocGet, hb, ih]

theorem assocGet_assocSet_ne {α : Type} (d : List (String × α)) (k k' : String) (v : α)
    (h : k' ≠ k) :
    assocGet (assocSet d k v) k' = assocGet d k' := by
  have hkk' : (k == k') = false := by
    simp only [beq_eq_false_iff_ne, ne_eq]
    exact fun hh => h hh.symm
  induction d with
  | nil => simp [assocSet, assocGet, hkk']
  | cons kv d ih =>
    by_cases hk : kv.1 = k
    · have hb : (kv.1 == k) = true := beq_iff_eq.mpr hk
      have hb' : (kv.1 == k') = false := by
        simp only [beq_eq_false_iff_ne, ne_eq]
        intro hh
        exact h (hh ▸ hk)
      simp [assocSet, assocGet, hb, hb', hkk', hk]
    · have hb : (kv.1 == k) = false := by simp [hk]
      cases hbv : (kv.1 == k') with
      | true => simp [assocSet, assocGet, hb, hbv]
      | false => simp [assocSet, assocGet, hb, hbv, ih]

/-! ## Data model -/

/-- One Parameter element's extracted attribute dictionary.  Both desktop
readers (xml_data_reader.py and the modular XmlParser.parse_parameter_element)
build a dict with exactly these thirteen keys via param.get(attr), so an
absent XML attribute is `none`; the web reader copies param.attrib, for which
key access through .get observes the same thirteen optional values. -/
structure Param where
  Name : Option String := none
  UM : Option String := none
  Value : Option String := none
  Rest : Option String := none
  Warmup : Option String := none
  MFO : Option String := none
  AT : Option String := none
  RC : Option String := none
  Max : Option String := none
  Pred : Option String := none
  PercPred : Option String := none
  Normal : Option String := none
  Class : Option String := none
deriving DecidableEq, Repr

/-- Python param.get(phase) for the phase-name strings the exporters use. -/
def Param.getPhase (p : Param) (ph : String) : Option String :=
  if ph == "Value" then p.Value
  else if ph == "Rest" then p.Rest
  else if ph == "Warmup" then p.Warmup
  else if ph == "MFO" then p.MFO
  else if ph == "AT" then p.AT
  else if ph == "RC" then p.RC
  else if ph == "Max" then p.Max
  else if ph == "Pred" then p.Pred
  else if ph == "PercPred" then p.PercPred
  else if ph == "Normal" then p.Normal
  else if ph == "Class" then p.Class
  else none

/-- One extracted file record, as produced by the extractors
(file_path, filename, subject_id, parameters). -/
structure FileData where
  file_path : String
  filename : String
  subject_id : Option String
  parameters : List Param
deriving DecidableEq, Repr

/-- The eleven phase columns of the Complete export, in source order
(excel_exporter.py line 170). -/
def phasesAll : List String :=
  ["Value", "Rest", "Warmup", "MFO", "AT", "RC", "Max", "Pred", "PercPred", "Normal",
    "Class"]

/-! ## XML documents (xml.etree.ElementTree values, after parsing) -/

mutual
inductive Xml where
  | elem (tag : String) (attrib : List (String × String)) (text : Option String)
      (children : XmlList) : Xml
inductive XmlList where
  | nil : XmlList
  | cons (hd : Xml) (tl : XmlList) : XmlList
end

def Xml.tag : Xml → String
  | .elem t _ _ _ => t

def Xml.attrib : Xml → List (String × String)
  | .elem _ a _ _ => a

def Xml.text : Xml → Option String
  | .elem _ _ x _ => x

def Xml.children : Xml → XmlList
  | .elem _ _ _ cs => cs

def XmlList.toList : XmlList → List Xml
  | .nil => []
  | .cons c cs => c :: cs.toList

/-- Element attribute lookup, element.get(name). -/
def Xml.getAttr (x : Xml) (k : String) : Option String :=
  (x.attrib.find? (fun kv => kv.1 == k)).map (·.2)

mutual
/-- All proper descendants of an element carrying the given tag, in document
order: the match set of an ElementTree ".//tag" path. -/
def Xml.descsTagged : Xml → String → List Xml
  | .elem _ _ _ cs, t => XmlList.descsTagged cs t
def XmlList.descsTagged : XmlList → String → List Xml
  | .nil, _ => []
  | .cons c cs, t =>
    (if c.tag == t then [c] else []) ++ Xml.descsTagged c t ++ XmlList.descsTagged cs t
end

/-- Direct children carrying the given tag, in document order (the match set
of findall("tag")). -/
def Xml.childrenNamed (x : Xml) (t : String) : List Xml :=
  x.children.toList.filter (fun c => c.tag == t)

/-- ElementTree find(".//t"): first matching descendant, or None. -/
def Xml.findDesc (x : Xml) (t : String) : Option Xml := (x.descsTagged t).head?

/-- ElementTree find(".//t1/t2"): for each t1 descendant in document order its
t2 children, first match overall, or None. -/
def Xml.findDescChild (x : Xml) (t1 t2 : String) : Option Xml :=
  ((x.descsTagged t1).flatMap (fun a => a.childrenNamed t2)).head?

/-! ## Extractors -/

/-- A file as the readers see it: its bare name and the outcome of
xml.etree.ElementTree parsing (`none` when ET.parse raises ParseError, which
XmlDataReader._parse_xml_file and XmlParser.parse_file turn into a None
return). -/
structure DiskFile where
  name : String
  parsed : Option Xml

/-- One Parameter element turned into an attribute dict: both
XmlParser.parse_parameter_element (modular) and the per-parameter dict in
COSMED_Converter_Deploy/xml_data_reader.py read these thirteen attributes via
param.get. -/
def parseParameterElement (e : Xml) : Param :=
  { Name := e.getAttr "Name", UM := e.getAttr "UM", Value := e.getAttr "Value",
    Rest := e.getAttr "Rest", Warmup := e.getAttr "Warmup", MFO := e.getAttr "MFO",
    AT := e.getAttr "AT", RC := e.getAttr "RC", Max := e.getAttr "Max",
    Pred := e.getAttr "Pred", PercPred := e.getAttr "PercPred",
    Normal := e.getAttr "Normal", Class := e.getAttr "Class" }

/-- xml_data_reader.py XmlDataReader.read_data, one directory of the os.walk
output: files whose name ends in ".xml" (case-sensitive str.endswith) are
parsed; a file that fails to parse raises
ValueError("Failed to parse XML file: path"), aborting everything. -/
def readDataDir : List DiskFile → String → Except String (List (String × Xml))
  | [], _ => .ok []
  | f :: fs, d =>
    if pyEndsWith f.name ".xml" then
      match f.parsed with
      | some root => (readDataDir fs d).map (fun rest => (joinPath d f.name, root) :: rest)
      | none => .error ("Failed to parse XML file: " ++ joinPath d f.name)
    else readDataDir fs d

/-- xml_data_reader.py XmlDataReader.read_data over the whole os.walk output
(directory-path, files) sequence. -/
def readData : List (String × List DiskFile) → Except String (List (String × Xml))
  | [] => .ok []
  | (d, fs) :: rest => do
    let xs ← readDataDir fs d
    let ys ← readData rest
    .ok (xs ++ ys)

/-- modules/utils/path_validator.py PathValidator.is_xml_file:
file_path.lower().endswith(".xml"). -/
def isXmlFile (name : String) : Bool := pyEndsWith (pyLower name) ".xml"

/-- modules/utils/file_scanner.py FileScanner.find_xml_files (recursive=True):
os.walk the tree, keep names passing is_xml_file, join with the directory,
return sorted(xml_files). -/
def findXmlFiles (walk : List (String × List DiskFile)) : List String :=
  (walk.flatMap (fun e =>
    e.2.filterMap (fun f =>
      if isXmlFile f.name then some (joinPath e.1 f.name) else none))).insertionSort
    (fun a b => strLe a b = true)

/-- modules/core/xml_parser.py XmlParser.validate_cosmed_structure: requires a
Subject descendant and an AdditionalData/Parameters descendant, else False. -/
def validateCosmedStructure (root : Xml) : Bool :=
  (root.findDesc "Subject").isSome && (root.findDescChild "AdditionalData" "Parameters").isSome

/-- modules/core/xml_parser.py XmlParser.extract_subject_id:
find(".//Subject/ID"); returns text.strip() when the element exists and its
text is truthy, else None. -/
def extractSubjectId (root : Xml) : Option String :=
  match root.findDescChild "Subject" "ID" with
  | none => none
  | some ide =>
    match ide.text with
    | none => none
    | some t => if t != "" then some (pyStrip t) else none

/-- modules/core/data_extractor.py DataExtractor._extract_parameters via
XmlParser.extract_parameters_section: find(".//AdditionalData/Parameters"),
then each Parameter child parsed; an absent section yields no parameters. -/
def extractParameters (root : Xml) : List Param :=
  match root.findDescChild "AdditionalData" "Parameters" with
  | none => []
  | some sec => (sec.childrenNamed "Parameter").map parseParameterElement

/-- modules/core/data_extractor.py DataExtractor.extract_from_file for a
scanned file inside directory d: None when parsing fails or
validate_cosmed_structure rejects the document, otherwise the record.  (The
record's parameter_count / extraction_success bookkeeping fields, which no
projection reads, are not modelled.) -/
def extractFromFile (d : String) (f : DiskFile) : Option FileData :=
  match f.parsed with
  | none => none
  | some root =>
    if validateCosmedStructure root then
      some { file_path := joinPath d f.name, filename := f.name,
             subject_id := extractSubjectId root, parameters := extractParameters root }
    else none

/-- modules/core/data_extractor.py DataExtractor.extract_from_directory, after
file scanning: each file is extracted, failures (None) are skipped, the rest
are appended in order. -/
def extractFromFiles (d : String) : List DiskFile → List FileData
  | [] => []
  | f :: fs =>
    match extractFromFile d f with
    | some rec0 => rec0 :: extractFromFiles d fs
    | none => extractFromFiles d fs

/-- COSMED_Converter_Deploy/xml_data_reader.py subject id:
find(".//Subject/ID") and take .text as is (no truthiness check, no strip). -/
def deploySubjectId (root : Xml) : Option String :=
  match root.findDescChild "Subject" "ID" with
  | none => none
  | some ide => ide.text

/-- COSMED_Converter_Deploy/xml_data_reader.py parameters:
find(".//AdditionalData/Parameters"), then its Parameter children as dicts;
an absent section leaves the parameter list empty. -/
def deployParams (root : Xml) : List Param :=
  match root.findDescChild "AdditionalData" "Parameters" with
  | none => []
  | some sec => (sec.childrenNamed "Parameter").map parseParameterElement

/-- The record COSMED_Converter_Deploy/xml_data_reader.py appends for a file
that parsed, whatever the document's structure. -/
def deployRecord (d fn : String) (root : Xml) : FileData :=
  { file_path := joinPath d fn, filename := fn, subject_id := deploySubjectId root,
    parameters := deployParams root }

/-- COSMED_Converter_Deploy/xml_data_reader.py
XmlDataReader.extract_id_and_parameters, one directory of the os.walk output:
".xml"-suffixed (case-sensitive) files are parsed; parse failure raises
ValueError, aborting; a parsed file always contributes a record. -/
def deployExtractDir : List DiskFile → String → Except String (List FileData)
  | [], _ => .ok []
  | f :: fs, d =>
    if pyEndsWith f.name ".xml" then
      match f.parsed with
      | some root => (deployExtractDir fs d).map (fun rest => deployRecord d f.name root :: rest)
      | none => .error ("Failed to parse XML file: " ++ joinPath d f.name)
    else deployExtractDir fs d

/-! ## Column naming -/

/-- Base column name as built in excel_exporter.py export_selected_parameters
line 66 (and, textually identically, in
modules/core/export_manager.py export_selected_parameters line 75 and in the
deploy selected exporter): name (unit) if unit is truthy and not "---",
else just name. -/
def selectedBaseName (name : String) (unit : Option String) : String :=
  if pyTruthy unit && !(unit == some "---") then name ++ " (" ++ pyStr unit ++ ")"
  else name

/-- Column name as built in excel_exporter.py export_max_values_only lines
120-123 (the name comes from param['Name'], which an f-string would render as
"None" were it missing). -/
def maxColumnName (name unit : Option String) : String :=
  if pyTruthy unit && !(unit == some "---") then pyStr name ++ " (" ++ pyStr unit ++ ")"
  else pyStr name

/-- Base column name as built in excel_exporter.py export_extracted_xml_data
line 167 (and textually identically in the deploy complete exporter): the
same rule written in negated form. -/
def completeBaseName (name unit : Option String) : String :=
  if !(pyTruthy unit) || unit == some "---" then pyStr name
  else pyStr name ++ " (" ++ pyStr unit ++ ")"

/-- Base column name as built in the web exporter (unit already defaulted to
"" by param.get('UM', '')): _create_selected_parameters_dataframe line 82,
_create_complete_dataframe line 140, _create_custom_parameters_dataframe
line 174. -/
def webBaseName (name unit : String) : String :=
  if unit != "" && unit != "---" then name ++ " (" ++ unit ++ ")" else name

/-- Column name as built in the web _create_max_values_dataframe line 118:
name (unit)_Max, or name_Max without a usable unit. -/
def webMaxColumnName (name unit : String) : String :=
  if unit != "" && unit != "---" then name ++ " (" ++ unit ++ ")_Max" else name ++ "_Max"

/-- Column name as built in the deploy export_max_values_only lines 110-113:
the unit parenthesis goes after the _Max suffix, and there is no base-name
intermediate. -/
def deployMaxColumnName (name unit : Option String) : String :=
  if pyTruthy unit && !(unit == some "---") then pyStr name ++ "_Max (" ++ pyStr unit ++ ")"
  else pyStr name ++ "_Max"

/-- Modelled from the spec (unit-suffix rule, spec.md section 4.2): if unit
is present (non-empty) and not the sentinel "---", the base name is
"name (unit)"; otherwise it is just "name".  Used only as the comparee of the
refinement claim C9. -/
def specUnitSuffixRule (name : String) : Option String → String
  | none => name
  | some u => if u ≠ "" ∧ u ≠ "---" then name ++ " (" ++ u ++ ")" else name

/-! ## Desktop projector (excel_exporter.py) -/

/-- A spreadsheet row: an insertion-ordered dict from column name to cell
value (None-valued cells occur in the desktop Complete export). -/
abbrev Row := List (String × Option String)

/-- modules/core/export_manager.py ExportManager.SELECTED_PARAMETERS: the
fixed clinical panel the desktop Selected export filters on. -/
def SELECTED_PARAMETERS : List String :=
  ["t", "Speed", "Pace", "VO2", "VO2/kg", "VCO2", "METS", "RQ", "VE", "Rf", "HR",
    "VO2/HR"]

/-- The phase list the Selected export takes for a panel parameter
(excel_exporter.py lines 69-74): all of MFO, AT, RC, Max for VO2/kg, Max
alone for everything else. -/
def selectedPhases (n : String) : List String :=
  if n == "VO2/kg" then ["MFO", "AT", "RC", "Max"] else ["Max"]

/-- The row assignments one parameter contributes in
excel_exporter.py export_selected_parameters lines 61-78: nothing unless its
name is in the panel; else, for each phase of its phase list whose value is
not None, one assignment to base_name_phase. -/
def selectedEmissions (p : Param) : List (String × Option String) :=
  match p.Name with
  | none => []
  | some n =>
    if SELECTED_PARAMETERS.contains n then
      (selectedPhases n).filterMap (fun ph =>
        match p.getPhase ph with
        | some v => some (selectedBaseName n p.UM ++ "_" ++ ph, some v)
        | none => none)
    else []

/-- One output row of the desktop Selected export (excel_exporter.py lines
55-80): Filename and Subject ID, then the parameter loop's assignments. -/
def selectedRow (fd : FileData) : Row :=
  applySets [("Filename", some fd.filename), ("Subject ID", fd.subject_id)]
    (fd.parameters.flatMap selectedEmissions)

/-- excel_exporter.py ExcelExporter.export_selected_parameters: raises
ValueError("No data provided for export") on an empty record list, otherwise
produces one row per record (the subsequent spreadsheet serialization is the
out-of-scope collaborator). -/
def exportSelectedParameters (data : List FileData) : Except String (List Row) :=
  if data.isEmpty then .error "No data provided for export"
  else .ok (data.map selectedRow)

/-- modules/core/export_manager.py ExportManager.export_selected_parameters
lines 62-89: its per-record row loop is textually identical to the one in
excel_exporter.py export_selected_parameters, so it is embedded by the same
row function. -/
def exportManagerSelectedRows (data : List FileData) : List Row :=
  data.map selectedRow

/-- The row assignment one parameter contributes in
excel_exporter.py export_max_values_only lines 114-124: its Max value under
maxColumnName, provided Max is neither None nor the empty string. -/
def maxEmission (p : Param) : Option (String × Option String) :=
  if p.Max != none && p.Max != some "" then some (maxColumnName p.Name p.UM, p.Max)
  else none

/-- One output row of the desktop Max-only export. -/
def maxRow (fd : FileData) : Row :=
  applySets [("Filename", some fd.filename), ("Subject ID", fd.subject_id)]
    (fd.parameters.filterMap maxEmission)

/-- excel_exporter.py ExcelExporter.export_max_values_only: raises
ValueError("No data provided for export") on an empty record list, otherwise
one row per record. -/
def exportMaxValuesOnly (data : List FileData) : Except String (List Row) :=
  if data.isEmpty then .error "No data provided for export"
  else .ok (data.map maxRow)

/-- The row assignments one parameter contributes in
excel_exporter.py export_extracted_xml_data lines 162-172: all eleven phases,
unconditionally, with value param.get(phase) (None allowed). -/
def completeEmissions (p : Param) : List (String × Option String) :=
  phasesAll.map (fun ph => (completeBaseName p.Name p.UM ++ "_" ++ ph, p.getPhase ph))

/-- One output row of the desktop Complete export (excel_exporter.py lines
153-174): Filename, Subject ID and File Path, then all parameters' phase
assignments. -/
def completeRow (fd : FileData) : Row :=
  applySets
    [("Filename", some fd.filename), ("Subject ID", fd.subject_id),
      ("File Path", some fd.file_path)]
    (fd.parameters.flatMap completeEmissions)

/-- excel_exporter.py ExcelExporter.export_extracted_xml_data: raises
ValueError("No data provided for export") on an empty record list, otherwise
one row per record. -/
def exportExtractedXmlData (data : List FileData) : Except String (List Row) :=
  if data.isEmpty then .error "No data provided for export"
  else .ok (data.map completeRow)

/-! ## Web projector (cosmed-data-converter-web excel_exporter.py) -/

/-- The web exporter's SELECTED_PARAMETERS panel (15 entries). -/
def WEB_SELECTED_PARAMETERS : List String :=
  ["t", "Speed", "Pace", "VO2", "VO2/kg", "VCO2", "METS", "RQ", "VE", "Rf", "HR",
    "VO2/HR", "P Syst", "P Diast", "HRR"]

/-- The params_dict fold the web Selected and Custom projections perform
(web excel_exporter.py lines 72-75 and 164-167): parameters with a truthy
Name are entered into a dict keyed by name, later entries overwriting
earlier ones. -/
def paramsDict (ps : List Param) : List (String × Param) :=
  ps.foldl
    (fun d p =>
      match p.Name with
      | some n => if n != "" then assocSet d n p else d
      | none => d)
    []

/-- The keep-last reading of claim C10: the last parameter in document order
bearing the given name. -/
def keepLastNamed (ps : List Param) (n : String) : Option Param :=
  ps.reverse.find? (fun p => p.Name == some n)

/-- The row assignments one panel name contributes in the web
_create_selected_parameters_dataframe lines 78-95: nothing when the name is
absent from params_dict; for VO2/kg the four truthy phases; otherwise one
_Max column fed by Max-or-Value, when truthy. -/
def webSelectedEmissions (pd : List (String × Param)) : List (String × Option String) :=
  WEB_SELECTED_PARAMETERS.flatMap (fun pname =>
    match assocGet pd pname with
    | none => []
    | some p =>
      let base := webBaseName pname (p.UM.getD "")
      if pname == "VO2/kg" then
        ["MFO", "AT", "RC", "Max"].filterMap (fun ph =>
          let v := (p.getPhase ph).getD ""
          if v != "" then some (base ++ "_" ++ ph, some v) else none)
      else
        let v := if pyTruthy p.Max then pyStr p.Max else p.Value.getD ""
        if v != "" then [(base ++ "_Max", some v)] else [])

/-- One output row of the web Selected projection. -/
def webSelectedRow (fd : FileData) : Row :=
  applySets [("Filename", some fd.filename), ("Subject ID", fd.subject_id)]
    (webSelectedEmissions (paramsDict fd.parameters))

/-- web _create_selected_parameters_dataframe: one row per record, no
empty-input check. -/
def webCreateSelectedRows (data : List FileData) : List Row :=
  data.map webSelectedRow

/-- The row assignment one parameter contributes in the web
_create_max_values_dataframe lines 112-119: its Max value under
webMaxColumnName, provided Name and Max are both truthy. -/
def webMaxEmission (p : Param) : Option (String × Option String) :=
  match p.Name with
  | none => none
  | some n =>
    if n != "" then
      match p.Max with
      | none => none
      | some m =>
        if m != "" then some (webMaxColumnName n (p.UM.getD ""), some m) else none
    else none

/-- One output row of the web Max-only projection. -/
def webMaxRow (fd : FileData) : Row :=
  applySets [("Filename", some fd.filename), ("Subject ID", fd.subject_id)]
    (fd.parameters.filterMap webMaxEmission)

/-- web _create_max_values_dataframe: one row per record, no empty-input
check. -/
def webCreateMaxValuesRows (data : List FileData) : List Row :=
  data.map webMaxRow

/-- The row assignments one parameter contributes in the web
_create_complete_dataframe lines 136-147: for each of the eleven phases, an
assignment only when the phase value is truthy. -/
def webCompleteEmissions (p : Param) : List (String × Option String) :=
  match p.Name with
  | none => []
  | some n =>
    if n != "" then
      let base := webBaseName n (p.UM.getD "")
      phasesAll.filterMap (fun ph =>
        match p.getPhase ph with
        | none => none
        | some v => if v != "" then some (base ++ "_" ++ ph, some v) else none)
    else []

/-- One output row of the web Complete projection. -/
def webCompleteRow (fd : FileData) : Row :=
  applySets [("Filename", some fd.filename), ("Subject ID", fd.subject_id)]
    (fd.parameters.flatMap webCompleteEmissions)

/-- web _create_complete_dataframe: one row per record, no empty-input
check. -/
def webCreateCompleteRows (data : List FileData) : List Row :=
  data.map webCompleteRow

/-- Column name in the web Custom projection (lines 179-183): the bare base
name when exactly one phase was requested for the parameter, otherwise
"base - phase". -/
def customColumnName (base ph : String) (phs : List String) : String :=
  if phs.length == 1 then base else base ++ " - " ++ ph

/-- The row assignments one selection entry (parameter name, requested
phases) contributes in the web _create_custom_parameters_dataframe lines
170-184: nothing when the name is absent from params_dict; else one
assignment per requested phase whose value is truthy. -/
def customSelEmissions (pd : List (String × Param)) (sel : String × List String) :
    List (String × Option String) :=
  match assocGet pd sel.1 with
  | none => []
  | some p =>
    let base := webBaseName sel.1 (p.UM.getD "")
    sel.2.filterMap (fun ph =>
      let v := (p.getPhase ph).getD ""
      if v != "" then some (customColumnName base ph sel.2, some v) else none)

/-- All row assignments of one record's Custom projection, in selection
order. -/
def webCustomEmissions (pd : List (String × Param)) (custom : List (String × List String)) :
    List (String × Option String) :=
  custom.flatMap (customSelEmissions pd)

/-- One output row of the web Custom projection (custom is the
CustomSelection: parameter name to requested phases, in insertion order). -/
def webCustomRow (custom : List (String × List String)) (fd : FileData) : Row :=
  applySets [("Filename", some fd.filename), ("Subject ID", fd.subject_id)]
    (webCustomEmissions (paramsDict fd.parameters) custom)

/-- web _create_custom_parameters_dataframe: one row per record, no
empty-input check. -/
def webCreateCustomRows (custom : List (String × List String)) (data : List FileData) :
    List Row :=
  data.map (webCustomRow custom)

/-! ## Deploy projector (COSMED_Converter_Deploy excel_exporter.py) -/

/-- The row assignment one parameter contributes in the deploy
export_max_values_only lines 104-115: unconditional, value param['Max'] (None
allowed), under deployMaxColumnName. -/
def deployMaxEmission (p : Param) : String × Option String :=
  (deployMaxColumnName p.Name p.UM, p.Max)

/-- One output row of the deploy Max-only export (note the lowercase header
keys of its base row). -/
def deployMaxRow (fd : FileData) : Row :=
  applySets [("filename", some fd.filename), ("subject_id", fd.subject_id)]
    (fd.parameters.map deployMaxEmission)

/-- COSMED_Converter_Deploy/excel_exporter.py export_max_values_only: raises
ValueError("No data provided for export") on an empty record list, otherwise
one row per record. -/
def deployExportMaxValuesOnly (data : List FileData) : Except String (List Row) :=
  if data.isEmpty then .error "No data provided for export"
  else .ok (data.map deployMaxRow)

/-! ## Concrete fixtures (spec.md section 8 scenario) -/

/-- List-to-XmlList conversion, for readable document literals. -/
def xl : List Xml → XmlList
  | [] => .nil
  | x :: xs => .cons x (xl xs)

/-- The Parameter element Name="HR" UM="bpm" Max="180" AT="150" of the spec's
concrete scenario. -/
def paramElemHR : Xml :=
  .elem "Parameter" [("Name", "HR"), ("UM", "bpm"), ("Max", "180"), ("AT", "150")] none
    (xl [])

/-- A well-formed document with Subject/ID "S001" and the one HR parameter. -/
def docS001 : Xml :=
  .elem "CPET" [] none
    (xl
      [.elem "Subject" [] none (xl [.elem "ID" [] (some "S001") (xl [])]),
        .elem "AdditionalData" [] none
          (xl [.elem "Parameters" [] none (xl [paramElemHR])])])

/-- A well-formed document with the same parameter section but no Subject
element anywhere. -/
def docNoSubject : Xml :=
  .elem "CPET" [] none
    (xl
      [.elem "AdditionalData" [] none
          (xl [.elem "Parameters" [] none (xl [paramElemHR])])])

def fileS001 : DiskFile := { name := "f.xml", parsed := some docS001 }

def fileNoSubject : DiskFile := { name := "g.xml", parsed := some docNoSubject }

def fileBad : DiskFile := { name := "bad.xml", parsed := none }

/-- The parameter record extraction produces for paramElemHR. -/
def pHR : Param := { Name := some "HR", UM := some "bpm", AT := some "150", Max := some "180" }

/-- A second HR parameter with different phase values, for duplicate-name
scenarios. -/
def pHR2 : Param := { Name := some "HR", UM := some "bpm", Max := some "190" }

/-- The record extraction produces for fileS001 in directory /data. -/
def recHR : FileData :=
  { file_path := "/data/f.xml", filename := "f.xml", subject_id := some "S001",
    parameters := [pHR] }

/-- A record with an empty parameter list. -/
def recNoParams : FileData :=
  { file_path := "/data/h.xml", filename := "h.xml", subject_id := some "S002",
    parameters := [] }

/-! ## Claims -/

/-- C5: calling an export operation (in particular Max-only export) with an
empty record list fails with the "No data provided for export" error rather
than producing an empty output table.  The error is raised exactly on the
empty list, for the desktop Max-only, Selected and Complete exports and the
deploy Max-only export. -/
theorem C5_empty_export_refused (data : List FileData) :
    (exportMaxValuesOnly data = .error "No data provided for export" ↔ data = []) ∧
    (deployExportMaxValuesOnly data = .error "No data provided for export" ↔ data = []) ∧
    (exportSelectedParameters data = .error "No data provided for export" ↔ data = []) ∧
    (exportExtractedXmlData data = .error "No data provided for export" ↔ data = []) := by
  cases data <;>
    simp [exportMaxValuesOnly, deployExportMaxValuesOnly, exportSelectedParameters,
      exportExtractedXmlData]

/-- C9: wherever a base column name is built, in every export mode, the rule
is: name (unit) when the unit is present (non-empty) and not the sentinel
"---", else just the name.  The five base-name construction sites (desktop
Selected / Max-only / Complete, web base names, web Max-only) all agree with
the spec's rule; the web Max-only site is the rule followed by the "_Max"
suffix.  (The deploy Max-only export builds its full column names directly,
"name_Max (unit)", without a base-name intermediate; see C3.) -/
theorem C9_unit_suffix_rule (name : String) (unit : Option String) :
    selectedBaseName name unit = specUnitSuffixRule name unit ∧
    maxColumnName (some name) unit = specUnitSuffixRule name unit ∧
    completeBaseName (some name) unit = specUnitSuffixRule name unit ∧
    webBaseName name (unit.getD "") = specUnitSuffixRule name unit ∧
    webMaxColumnName name (unit.getD "") = specUnitSuffixRule name unit ++ "_Max" := by
  have hsuffix : ∀ a : String, a ++ ")_Max" = a ++ ")" ++ "_Max" := by
    intro a
    rw [String.append_assoc]
    rfl
  rcases unit with _ | u
  · simp [selectedBaseName, maxColumnName, completeBaseName, webBaseName,
      webMaxColumnName, specUnitSuffixRule, pyTruthy, pyStr]
  · by_cases h1 : u = ""
    · subst h1
      simp [selectedBaseName, maxColumnName, completeBaseName, webBaseName,
        webMaxColumnName, specUnitSuffixRule, pyTruthy, pyStr]
    · by_cases h2 : u = "---"
      · subst h2
        simp [selectedBaseName, maxColumnName, completeBaseName, webBaseName,
          webMaxColumnName, specUnitSuffixRule, pyTruthy, pyStr]
      · simp [selectedBaseName, maxColumnName, completeBaseName, webBaseName,
          webMaxColumnName, specUnitSuffixRule, pyTruthy, pyStr, h1, h2, hsuffix]

/-- C7: the spec's concrete Selected-mode scenario, end to end on the desktop
pipeline: a file f.xml with Subject/ID "S001" and one Parameter Name="HR"
UM="bpm" Max="180" AT="150" extracts to the expected record, and its
Selected-mode row (both in excel_exporter.py and via the identical
ExportManager loop) is exactly Filename, Subject ID, and "HR (bpm)_Max" with
value "180" — the AT value is dropped. -/
theorem C7_selected_scenario :
    extractFromFiles "/data" [fileS001] = [recHR] ∧
    exportSelectedParameters [recHR] =
      .ok
        [[("Filename", some "f.xml"), ("Subject ID", some "S001"),
          ("HR (bpm)_Max", some "180")]] ∧
    exportManagerSelectedRows [recHR] =
      [[("Filename", some "f.xml"), ("Subject ID", some "S001"),
        ("HR (bpm)_Max", some "180")]] := by
  refine ⟨?_, ?_, ?_⟩ <;> rfl

/-- C10: in the web Selected and Custom projections, the record's parameter
list is folded into params_dict keyed by (truthy) name before any column is
emitted, and lookup in that dict returns exactly the last occurrence of the
name in document order — keep-last, earlier duplicates discarded.  The second
conjunct states that those two projections read the parameter list only
through params_dict, so the discarded earlier occurrences cannot contribute
to the row. -/
theorem C10_params_dict_keep_last (ps : List Param) (n : String) (hn : n ≠ "") :
    assocGet (paramsDict ps) n = keepLastNamed ps n ∧
    (∀ fd₁ fd₂ : FileData, fd₁.filename = fd₂.filename → fd₁.subject_id = fd₂.subject_id →
      paramsDict fd₁.parameters = paramsDict fd₂.parameters →
      webSelectedRow fd₁ = webSelectedRow fd₂ ∧
      ∀ custom, webCustomRow custom fd₁ = webCustomRow custom fd₂) := by
  constructor
  case right =>
    intro fd₁ fd₂ hf hs hpd
    constructor
    · rw [webSelectedRow, webSelectedRow, hf, hs, hpd]
    · intro custom
      rw [webCustomRow, webCustomRow, hf, hs, hpd]
  case left =>
  induction ps using List.reverseRecOn with
  | nil => rfl
  | append_singleton ps p ih =>
    have hstep :
        paramsDict (ps ++ [p]) =
          (match p.Name with
            | some m => if m != "" then assocSet (paramsDict ps) m p else paramsDict ps
            | none => paramsDict ps) := by
      simp [paramsDict, List.foldl_append]
    have hlast :
        keepLastNamed (ps ++ [p]) n =
          if p.Name == some n then some p else keepLastNamed ps n := by
      simp only [keepLastNamed, List.reverse_append, List.reverse_cons, List.reverse_nil,
        List.nil_append, List.cons_append, List.find?]
      cases hpn : (p.Name == some n) <;> simp
    rw [hstep, hlast]
    rcases hname : p.Name with _ | m
    · simp [hname, ih]
    · by_cases hm : m = ""
      · subst hm
        have : (("" : String) == n) = false := by
          simp [Ne.symm hn]
        simp [this, ih]
      · have hmt : (m != "") = true := by simp [hm]
        simp only [hmt, if_true]
        by_cases hmn : m = n
        · subst hmn
          simp [assocGet_assocSet_self]
        · have h1 : (some m == some n) = false := by simp [hmn]
          have h2 : n ≠ m := fun h => hmn h.symm
          simp [h1, assocGet_assocSet_ne _ _ _ _ h2, ih]

/-- C10 witness: with two parameters both named HR, the dict holds the second
one, and the web Selected row of the duplicated record equals that of the
record holding the second occurrence alone. -/
theorem C10_params_dict_keep_last_witness :
    ("HR" : String) ≠ "" ∧ assocGet (paramsDict [pHR, pHR2]) "HR" = some pHR2 ∧
    webSelectedRow { recHR with parameters := [pHR, pHR2] } =
      webSelectedRow { recHR with parameters := [pHR2] } := by
  refine ⟨by decide, ?_, ?_⟩
  · rw [(C10_params_dict_keep_last [pHR, pHR2] "HR" (by decide)).1]
    rfl
  · exact
      ((C10_params_dict_keep_last [] "HR" (by decide)).2
        { recHR with parameters := [pHR, pHR2] } { recHR with parameters := [pHR2] }
        rfl rfl (by rfl)).1

/-- C1 counterexample: a directory holding one well-formed and one malformed
XML file.  XmlDataReader.read_data (xml_data_reader.py lines 17-34) does not
exclude the malformed file and keep the rest: it raises
ValueError("Failed to parse XML file: ..."), aborting the whole batch. -/
theorem C1_counterexample :
    readData [("/data", [fileS001, fileBad])] =
      .error "Failed to parse XML file: /data/bad.xml" := by
  rfl

/-- C1 amended: the claim holds for the modular extractor
(DataExtractor.extract_from_directory): a file whose parse fails is skipped
and the batch is exactly the concatenation of what the surrounding files
produce; but XmlDataReader.read_data instead raises on the first malformed
file (see the counterexample). -/
theorem C1_amended_modular_resilient (d : String) (xs ys : List DiskFile)
    (bad : DiskFile) (hbad : bad.parsed = none) :
    extractFromFiles d (xs ++ bad :: ys) = extractFromFiles d xs ++ extractFromFiles d ys := by
  induction xs with
  | nil => simp [extractFromFiles, extractFromFile, hbad]
  | cons f fs ih =>
    cases h : extractFromFile d f <;>
      simp [extractFromFiles, h, ih, List.cons_append]

/-- C1 amended witness: one good and one malformed file; the good file's
record survives. -/
theorem C1_amended_modular_resilient_witness :
    fileBad.parsed = none ∧
    extractFromFiles "/data" [fileS001, fileBad] = [recHR] := by
  refine ⟨rfl, ?_⟩
  rw [show ([fileS001, fileBad] : List DiskFile) = [fileS001] ++ fileBad :: [] from rfl,
    C1_amended_modular_resilient "/data" [fileS001] [] fileBad rfl]
  rfl

/-- C2 counterexample: the web Complete projection
(_create_complete_dataframe) of the spec's HR record does not contain the
parameter's "HR (bpm)_Value" column key — the claim's "each such column key
is present in the row even when the underlying phase value is absent" fails
there, because the web variant only emits phases with truthy values. -/
theorem C2_counterexample :
    ¬ ("HR (bpm)_Value" ∈ assocKeys (webCompleteRow recHR)) := by
  decide

/-- C2 amended: in the desktop Complete export
(excel_exporter.py export_extracted_xml_data) the claim holds: for every
record of the batch and every parameter in it, all eleven phase column keys
are present in that record's row, populated or not; the web Complete variant
instead omits phase columns whose values are absent or blank (see the
counterexample). -/
theorem C2_amended_desktop_complete_all_phases (data : List FileData) (fd : FileData)
    (p : Param) (ph : String) (hfd : fd ∈ data) (hp : p ∈ fd.parameters)
    (hph : ph ∈ phasesAll) :
    exportExtractedXmlData data = .ok (data.map completeRow) ∧
    completeRow fd ∈ data.map completeRow ∧
    (completeBaseName p.Name p.UM ++ "_" ++ ph) ∈ assocKeys (completeRow fd) := by
  have hne : data.isEmpty = false := by
    cases data with
    | nil => exact absurd hfd (List.not_mem_nil fd)
    | cons a l => rfl
  refine ⟨by simp [exportExtractedXmlData, hne], List.mem_map_of_mem _ hfd, ?_⟩
  apply (mem_assocKeys_applySets _ _ _).mpr
  right
  apply List.mem_map.mpr
  refine ⟨(completeBaseName p.Name p.UM ++ "_" ++ ph, p.getPhase ph), ?_, rfl⟩
  apply List.mem_flatMap.mpr
  refine ⟨p, hp, ?_⟩
  simp only [completeEmissions]
  exact List.mem_map.mpr ⟨ph, hph, rfl⟩

/-- C2 amended witness: the HR record's desktop Complete row has the Value
column key even though HR has no Value phase. -/
theorem C2_amended_desktop_complete_all_phases_witness :
    recHR ∈ [recHR] ∧ pHR ∈ recHR.parameters ∧ "Value" ∈ phasesAll ∧
    ("HR (bpm)_Value" ∈ assocKeys (completeRow recHR)) := by
  have h :=
    C2_amended_desktop_complete_all_phases [recHR] recHR pHR "Value"
      (List.mem_singleton.mpr rfl) (by decide) (by decide)
  exact ⟨List.mem_singleton.mpr rfl, by decide, by decide, h.2.2⟩

/-- C6 counterexample: a well-formed document with a Parameters section but
no Subject element.  The modular extractor
(XmlParser.validate_cosmed_structure, used by DataExtractor.extract_from_file)
excludes the file from the result set instead of producing a record with an
absent subject_id. -/
theorem C6_counterexample :
    fileNoSubject.parsed = some docNoSubject ∧
    validateCosmedStructure docNoSubject = false ∧
    extractFromFiles "/data" [fileNoSubject] = [] := by
  refine ⟨rfl, rfl, rfl⟩

/-- C6 amended: the claim holds for the deploy reader
(COSMED_Converter_Deploy XmlDataReader.extract_id_and_parameters): every file
whose name passes the ".xml" filter and whose document parsed contributes a
record whatever the document's structure — with subject_id None when there is
no Subject/ID, and an empty parameter list when there is no
AdditionalData/Parameters; but the modular extractor excludes such files
outright (see the counterexample). -/
theorem C6_amended_deploy_permissive (d fn : String) (root : Xml) (fs : List DiskFile)
    (hx : pyEndsWith fn ".xml" = true) :
    deployExtractDir ({ name := fn, parsed := some root } :: fs) d =
      (deployExtractDir fs d).map (fun rest => deployRecord d fn root :: rest) ∧
    (root.findDescChild "Subject" "ID" = none → (deployRecord d fn root).subject_id = none) ∧
    (root.findDescChild "AdditionalData" "Parameters" = none →
      (deployRecord d fn root).parameters = []) := by
  refine ⟨?_, ?_, ?_⟩
  · simp [deployExtractDir, hx]
  · intro h
    simp [deployRecord, deploySubjectId, h]
  · intro h
    simp [deployRecord, deployParams, h]

/-- C6 amended witness: the no-Subject document still yields a deploy record,
with subject_id None and the parameter list intact. -/
theorem C6_amended_deploy_permissive_witness :
    pyEndsWith "g.xml" ".xml" = true ∧
    deployExtractDir [fileNoSubject] "/data" =
      .ok
        [{ file_path := "/data/g.xml", filename := "g.xml", subject_id := none,
           parameters := [pHR] }] := by
  refine ⟨rfl, ?_⟩
  rw [show ([fileNoSubject] : List DiskFile) =
      { name := "g.xml", parsed := some docNoSubject } :: [] from rfl,
    (C6_amended_deploy_permissive "/data" "g.xml" docNoSubject [] rfl).1]
  rfl

/-- Characterization of the single row assignment the web Max-only projection
derives from one parameter. -/
theorem webMaxEmission_eq_some (p : Param) (e : String × Option String) :
    webMaxEmission p = some e ↔
      ∃ n m, p.Name = some n ∧ n ≠ "" ∧ p.Max = some m ∧ m ≠ "" ∧
        e = (webMaxColumnName n (p.UM.getD ""), some m) := by
  rcases hname : p.Name with _ | n
  · simp [webMaxEmission, hname]
  · by_cases hn : n = ""
    · subst hn
      simp [webMaxEmission, hname]
    · have hnb : (n != "") = true := by simp [hn]
      rcases hmax : p.Max with _ | m
      · simp [webMaxEmission, hname, hmax, hnb]
      · by_cases hm : m = ""
        · subst hm
          simp [webMaxEmission, hname, hmax, hnb]
        · have hmb : (m != "") = true := by simp [hm]
          simp [webMaxEmission, hname, hmax, hnb, hmb, hn, hm, eq_comm]

/-- C3 counterexample: the desktop Max-only export
(excel_exporter.py export_max_values_only) of the spec's HR record names the
HR column "HR (bpm)" — without the "_Max" suffix the claim requires. -/
theorem C3_counterexample :
    exportMaxValuesOnly [recHR] =
      .ok
        [[("Filename", some "f.xml"), ("Subject ID", some "S001"),
          ("HR (bpm)", some "180")]] ∧
    ¬ ("HR (bpm)_Max" ∈ assocKeys (maxRow recHR)) := by
  exact ⟨rfl, by decide⟩

/-- C3 amended: the claim as stated holds only of the web Max-only projection
(_create_max_values_dataframe): each parameter contributes at most one
assignment, and a key is in the row exactly when it is Filename, Subject ID,
or the "name (unit)_Max" / "name_Max" column of a parameter with truthy Name
and truthy Max — absent or blank Max values contribute no key at all.  The
desktop variant keeps the omission policy but drops the "_Max" suffix (see
the counterexample), and the deploy variant (third conjunct) always emits a
column for every parameter, Max present or not, under "name_Max (unit)". -/
theorem C3_amended_web_max (fd : FileData) (k : String) :
    (fd.parameters.filterMap webMaxEmission).length ≤ fd.parameters.length ∧
    (k ∈ assocKeys (webMaxRow fd) ↔
      k = "Filename" ∨ k = "Subject ID" ∨
      ∃ p ∈ fd.parameters, ∃ n m, p.Name = some n ∧ n ≠ "" ∧ p.Max = some m ∧ m ≠ "" ∧
        k = webMaxColumnName n (p.UM.getD "")) ∧
    (∀ p ∈ fd.parameters,
      deployMaxColumnName p.Name p.UM ∈ assocKeys (deployMaxRow fd)) := by
  refine ⟨List.length_filterMap_le _ _, ?_, ?_⟩
  · rw [webMaxRow, mem_assocKeys_applySets]
    constructor
    · rintro (hbase | hemit)
      · simp only [assocKeys, List.map_cons, List.map_nil, List.mem_cons,
          List.not_mem_nil, or_false] at hbase
        tauto
      · obtain ⟨e, he, heq⟩ := List.mem_map.mp hemit
        obtain ⟨p, hp, hfp⟩ := List.mem_filterMap.mp he
        obtain ⟨n, m, hn, hne, hm, hme, rfl⟩ := (webMaxEmission_eq_some p e).mp hfp
        right; right
        exact ⟨p, hp, n, m, hn, hne, hm, hme, heq.symm⟩
    · rintro (rfl | rfl | ⟨p, hp, n, m, hn, hne, hm, hme, rfl⟩)
      · left; simp [assocKeys]
      · left; simp [assocKeys]
      · right
        apply List.mem_map.mpr
        refine ⟨(webMaxColumnName n (p.UM.getD ""), some m), ?_, rfl⟩
        apply List.mem_filterMap.mpr
        exact ⟨p, hp, (webMaxEmission_eq_some p _).mpr ⟨n, m, hn, hne, hm, hme, rfl⟩⟩
  · intro p hp
    rw [deployMaxRow, mem_assocKeys_applySets]
    right
    apply List.mem_map.mpr
    exact ⟨deployMaxEmission p, List.mem_map_of_mem _ hp, rfl⟩

/-- C3 amended witness: the HR record's web Max-only row has the
"HR (bpm)_Max" key, and the deploy row of a record whose one parameter lacks
a Max value still carries that parameter's column. -/
theorem C3_amended_web_max_witness :
    ("HR (bpm)_Max" ∈ assocKeys (webMaxRow recHR)) ∧
    pHR ∈ recHR.parameters ∧
    ("HR (bpm)_Max" = "Filename" ∨ "HR (bpm)_Max" = "Subject ID" ∨
      ∃ p ∈ recHR.parameters, ∃ n m,
        p.Name = some n ∧ n ≠ "" ∧ p.Max = some m ∧ m ≠ "" ∧
        "HR (bpm)_Max" = webMaxColumnName n (p.UM.getD "")) ∧
    (deployMaxColumnName pHR.Name pHR.UM ∈ assocKeys (deployMaxRow recHR)) := by
  have h := C3_amended_web_max recHR "HR (bpm)_Max"
  have hrhs : "HR (bpm)_Max" = "Filename" ∨ "HR (bpm)_Max" = "Subject ID" ∨
      ∃ p ∈ recHR.parameters, ∃ n m,
        p.Name = some n ∧ n ≠ "" ∧ p.Max = some m ∧ m ≠ "" ∧
        "HR (bpm)_Max" = webMaxColumnName n (p.UM.getD "") := by
    right; right
    exact ⟨pHR, by decide, "HR", "180", rfl, by decide, rfl, by decide, rfl⟩
  exact ⟨h.2.1.mpr hrhs, by decide, hrhs, h.2.2 pHR (by decide)⟩

/-- Characterization of the row assignments one Custom-selection entry
contributes (web _create_custom_parameters_dataframe lines 170-184). -/
theorem mem_customSelEmissions (pd : List (String × Param)) (sel : String × List String)
    (e : String × Option String) :
    e ∈ customSelEmissions pd sel ↔
      ∃ p, assocGet pd sel.1 = some p ∧
        ∃ ph ∈ sel.2, (p.getPhase ph).getD "" ≠ "" ∧
          e = (customColumnName (webBaseName sel.1 (p.UM.getD "")) ph sel.2,
            some ((p.getPhase ph).getD "")) := by
  rcases h : assocGet pd sel.1 with _ | p
  · simp [customSelEmissions, h]
  · simp only [customSelEmissions, h, List.mem_filterMap, Option.some.injEq]
    constructor
    · rintro ⟨ph, hph, heq⟩
      by_cases hv : (p.getPhase ph).getD "" = ""
      · rw [if_neg (by simp [hv])] at heq
        exact absurd heq (by simp)
      · rw [if_pos (by simp [hv])] at heq
        exact ⟨p, rfl, ph, hph, hv, (Option.some.inj heq).symm⟩
    · rintro ⟨p', hp', ph, hph, hv, rfl⟩
      obtain rfl : p = p' := hp'
      exact ⟨ph, hph, by rw [if_pos (by simp [hv])]⟩

/-- The custom selection of the C4 counterexample: one parameter "A" with the
single requested phase Max. -/
def custom0 : List (String × List String) := [("A", ["Max"])]

/-- C4 counterexample: a record with no parameters.  The web Custom
projection leaves the selection's "A" column out of the row's key set
entirely instead of emitting it with an empty-string value. -/
theorem C4_counterexample :
    assocKeys (webCustomRow custom0 recNoParams) = ["Filename", "Subject ID"] ∧
    ¬ ("A" ∈ assocKeys (webCustomRow custom0 recNoParams)) := by
  exact ⟨rfl, by decide⟩

/-- C4 amended: a key is in a web Custom row exactly when it is Filename,
Subject ID, or a column of a selection entry whose parameter is present in
the record's params_dict with a truthy value at one of the requested phases.
Parameters or phases of the selection that are absent from the subject's data
(or blank) are omitted from the key set, not blank-filled, so the key set is
not the selection's cross product. -/
theorem C4_amended_web_custom (custom : List (String × List String)) (fd : FileData)
    (k : String) :
    k ∈ assocKeys (webCustomRow custom fd) ↔
      k = "Filename" ∨ k = "Subject ID" ∨
      ∃ sel ∈ custom, ∃ p, assocGet (paramsDict fd.parameters) sel.1 = some p ∧
        ∃ ph ∈ sel.2, (p.getPhase ph).getD "" ≠ "" ∧
          k = customColumnName (webBaseName sel.1 (p.UM.getD "")) ph sel.2 := by
  rw [webCustomRow, mem_assocKeys_applySets]
  constructor
  · rintro (hbase | hemit)
    · simp only [assocKeys, List.map_cons, List.map_nil, List.mem_cons,
        List.not_mem_nil, or_false] at hbase
      tauto
    · obtain ⟨e, he, heq⟩ := List.mem_map.mp hemit
      obtain ⟨sel, hsel, hee⟩ :=
        List.mem_flatMap.mp (by simpa only [webCustomEmissions] using he)
      obtain ⟨p, hp, ph, hph, hv, rfl⟩ := (mem_customSelEmissions _ _ _).mp hee
      right; right
      exact ⟨sel, hsel, p, hp, ph, hph, hv, heq.symm⟩
  · rintro (rfl | rfl | ⟨sel, hsel, p, hp, ph, hph, hv, rfl⟩)
    · left; simp [assocKeys]
    · left; simp [assocKeys]
    · right
      apply List.mem_map.mpr
      refine
        ⟨(customColumnName (webBaseName sel.1 (p.UM.getD "")) ph sel.2,
          some ((p.getPhase ph).getD "")), ?_, rfl⟩
      simp only [webCustomEmissions]
      apply List.mem_flatMap.mpr
      exact ⟨sel, hsel, (mem_customSelEmissions _ _ _).mpr ⟨p, hp, ph, hph, hv, rfl⟩⟩

/-- The walk of the C8 scenario: one directory with the one file TEST.XML,
well-formed. -/
def fileUpper : DiskFile := { name := "TEST.XML", parsed := some docS001 }

/-- C8 counterexample: TEST.XML is an XML candidate under the
case-insensitive rule (PathValidator.is_xml_file accepts it), but
XmlDataReader.read_data's filter is the case-sensitive
filename.endswith(".xml"), so read_data selects nothing from a directory
whose only file is a well-formed TEST.XML. -/
theorem C8_counterexample :
    isXmlFile "TEST.XML" = true ∧
    readData [("/data", [fileUpper])] = .ok [] := by
  exact ⟨rfl, rfl⟩

/-- C8 amended: the modular scanner (FileScanner.find_xml_files over the
os.walk output, filtering with PathValidator.is_xml_file) selects every file
of every walked directory whose name ends in ".xml" case-insensitively;
XmlDataReader.read_data instead filters case-sensitively and skips TEST.XML
(see the counterexample), and the web reader filters case-insensitively but
over os.listdir, i.e. the top level only. -/
theorem C8_amended_scanner_case_insensitive (walk : List (String × List DiskFile))
    (d : String) (fs : List DiskFile) (f : DiskFile)
    (hw : (d, fs) ∈ walk) (hf : f ∈ fs) (hx : isXmlFile f.name = true) :
    joinPath d f.name ∈ findXmlFiles walk := by
  unfold findXmlFiles
  rw [(List.perm_insertionSort _ _).mem_iff]
  apply List.mem_flatMap.mpr
  refine ⟨(d, fs), hw, ?_⟩
  apply List.mem_filterMap.mpr
  exact ⟨f, hf, by simp [hx]⟩

/-- C8 amended witness: the scanner does select /data/TEST.XML. -/
theorem C8_amended_scanner_case_insensitive_witness :
    ("/data", [fileUpper]) ∈ [("/data", [fileUpper])] ∧
    fileUpper ∈ [fileUpper] ∧ isXmlFile fileUpper.name = true ∧
    joinPath "/data" fileUpper.name ∈ findXmlFiles [("/data", [fileUpper])] := by
  refine ⟨List.mem_singleton.mpr rfl, List.mem_singleton.mpr rfl, rfl, ?_⟩
  exact
    C8_amended_scanner_case_insensitive [("/data", [fileUpper])] "/data" [fileUpper]
      fileUpper (List.mem_singleton.mpr rfl) (List.mem_singleton.mpr rfl) rfl
